import Mathlib

/-!
Verification development for the recipez repository.

Shallow embedding of the Suggestion Engine (`src/app/services/OpenAIService.ts`),
the chat screen request handling (`src/app/screens/AIChatScreen.tsx`) and the
recipe table of the database service (`src/unnamed/part_000`, a SQLite wrapper).

External effects (the HTTP call and its JSON body) are modelled by an explicit
`ApiOutcome` value: the transport either fails, or delivers a status code and a
parsed content.  A parsed JSON object is modelled after how the TypeScript code
reads it: missing or empty string fields are both the empty string (JavaScript
falsy check `!recipe.name`), and the content either has a `recipes` array, is a
single object, or is unparsable.  `Math.random()`-driven choices are modelled by
an explicit numeric argument (`rnd`, or a stream `rnds` for loops).
-/

namespace Recipez

/-- The `Ingredient` row from DatabaseService. -/
structure Ingredient where
  id : Nat := 0
  name : String
  category : String
  quantity : Int := 0
  dateAdded : String := ""
deriving Repr, DecidableEq

/-- The `RecipeSuggestion` from OpenAIService: transient structured recipe. -/
structure RecipeSuggestion where
  name : String
  glass : String
  ingredients : String
  instructions : String
deriving Repr, DecidableEq, Inhabited

/-- The `Recipe` row from DatabaseService. -/
structure Recipe where
  id : Nat
  name : String
  ingredients : String
  instructions : String
  glass : String
  source : String
  dateAdded : String
deriving Repr, DecidableEq

/-- The hard-coded placeholder API key from OpenAIService.ts line 6. -/
def OPENAI_API_KEY : String := "//"

/-- The mutable fields of OpenAIServiceClass. -/
structure OpenAIServiceState where
  apiKey : String
  isConfigured : Bool
deriving Repr, DecidableEq

/-- The OpenAIServiceClass constructor:
`this.isConfigured = OPENAI_API_KEY == '//' && OPENAI_API_KEY.length > 0`. -/
def OpenAIServiceInit : OpenAIServiceState :=
  { apiKey := OPENAI_API_KEY,
    isConfigured := (OPENAI_API_KEY == "//") && decide (0 < OPENAI_API_KEY.length) }

/-- The `isApiConfigured()` accessor. -/
def isApiConfigured (svc : OpenAIServiceState) : Bool :=
  svc.isConfigured

/-- Literal list prefix test (JavaScript `String.prototype.startsWith` style),
used to implement substring search over the character list of a string. -/
def litPre : List Char → List Char → Bool
  | [], _ => true
  | _ :: _, [] => false
  | a :: w, b :: s => (a == b) && litPre w s

/-- JavaScript `String.prototype.includes`: the needle occurs contiguously in
the haystack. -/
def strContains (needle : List Char) : List Char → Bool
  | [] => needle.isEmpty
  | c :: t => litPre needle (c :: t) || strContains needle t

/-- Keyword list from generateCocktailRecipe line 55. -/
def multipleRecipeKeywords : List String :=
  ["recipes", "suggestions", "options", "cocktails", "multiple", "few", "several", "some"]

/-- The `requestsMultiple` from generateCocktailRecipe lines 56-58:
some keyword is contained in the lower-cased user message. -/
def requestsMultiple (userMessage : String) : Bool :=
  multipleRecipeKeywords.any fun keyword =>
    strContains keyword.toList (userMessage.toList.map Char.toLower)

/-- Case-insensitive list prefix test, for the `/i` regex flag. -/
def lcPre : List Char → List Char → Bool
  | [], _ => true
  | _ :: _, [] => false
  | a :: w, b :: s => (a.toLower == b.toLower) && lcPre w s

/-- The alternatives of the second capture group of the count regex
`/(\d+)\s*(recipe|cocktail|drink|suggestion)/i`. -/
def countKeywords : List String :=
  ["recipe", "cocktail", "drink", "suggestion"]

/-- JavaScript regex `\s` character class (whitespace). -/
def isJsWhitespace (c : Char) : Bool :=
  c == ' ' || c == '\t' || c == '\n' || c == '\r' || c == '\u000B' || c == '\u000C' ||
  c == '\u00A0' || c == '\u1680' ||
  (decide ('\u2000' ≤ c) && decide (c ≤ '\u200A')) ||
  c == '\u2028' || c == '\u2029' || c == '\u202F' || c == '\u205F' ||
  c == '\u3000' || c == '\uFEFF'

/-- The `parseInt` on a digit string (the first capture group is all decimal
digits, so only the plain decimal case of parseInt is reachable). -/
def digitsToNat (ds : List Char) : Nat :=
  ds.foldl (fun acc c => acc * 10 + (c.toNat - '0'.toNat)) 0

/-- One attempt of the regex `/(\d+)\s*(recipe|cocktail|drink|suggestion)/i` at
a fixed start position.  Because the digit, whitespace and keyword character
classes are pairwise disjoint, greedy matching with backtracking succeeds here
exactly when the maximal digit run at the position, followed by the maximal
whitespace run, is followed by one of the keywords (case-insensitively); the
first capture group is then the digit run. -/
def numberMatchAt (s : List Char) : Option Nat :=
  let ds := s.takeWhile Char.isDigit
  if ds.isEmpty then none
  else
    let afterDigits := s.dropWhile Char.isDigit
    let afterSpace := afterDigits.dropWhile isJsWhitespace
    if countKeywords.any (fun w => lcPre w.toList afterSpace) then
      some (digitsToNat ds)
    else none

/-- The `String.prototype.match` without the global flag: the leftmost position at
which the regex matches wins. -/
def findNumberMatch : List Char → Option Nat
  | [] => none
  | c :: cs =>
    match numberMatchAt (c :: cs) with
    | some n => some n
    | none => findNumberMatch cs

/-- The `userMessage.match(/(\d+)\s*(recipe|cocktail|drink|suggestion)/i)` followed
by `parseInt(numberMatch[1])`; `none` when there is no match. -/
def extractCount (userMessage : String) : Option Nat :=
  findNumberMatch userMessage.toList

/-- The `requestedCount` from generateCocktailRecipe line 62:
`numberMatch ? parseInt(numberMatch[1]) : (requestsMultiple ? 3 : 1)`. -/
def requestedCount (userMessage : String) : Nat :=
  match extractCount userMessage with
  | some n => n
  | none => if requestsMultiple userMessage then 3 else 1

/-- The `actualCount` from generateCocktailRecipe line 63:
`Math.min(Math.max(requestedCount, 1), 5)`. -/
def actualCount (userMessage : String) : Nat :=
  min (max (requestedCount userMessage) 1) 5

/-- The `actualCount` from generateMultipleRecipes line 195, on the raw `count`
argument: `Math.min(Math.max(count, 1), 5)`. -/
def actualCountMultiple (count : Int) : Int :=
  min (max count 1) 5

/-- JavaScript `Array.prototype.join` with a separator. -/
def jsJoin (sep : String) : List String → String
  | [] => ""
  | [x] => x
  | x :: xs => x ++ sep ++ jsJoin sep xs

/-- The template `` `${item.name} (${item.category})` `` applied to one
inventory item. -/
def ingredientEntry (item : Ingredient) : String :=
  item.name ++ " (" ++ item.category ++ ")"

/-- The `inventoryList` from generateCocktailRecipe lines 50-52 and
generateMultipleRecipes lines 191-193. -/
def inventoryList (inventory : List Ingredient) : String :=
  if 0 < inventory.length then
    jsJoin ", " (inventory.map ingredientEntry)
  else "No inventory available"

/-- What a generation response body parses to, as the TypeScript code reads it:
an object with a `recipes` array, some other object (read as a single recipe,
missing fields being empty), or not valid JSON at all. -/
inductive ParsedContent where
  | unparsable
  | singleObj (r : RecipeSuggestion)
  | recipesArr (rs : List RecipeSuggestion)
deriving Repr, DecidableEq

/-- Outcome of one `fetch` of the completion endpoint: transport failure, or a
response with an HTTP status and a (parsed) body content. -/
inductive ApiOutcome where
  | networkError
  | response (status : Nat) (content : ParsedContent)
deriving Repr, DecidableEq

/-- The `response.ok`: status in the inclusive-exclusive range [200, 300). -/
def statusOk (status : Nat) : Bool :=
  decide (200 ≤ status) && decide (status < 300)

/-- The `validGlasses` from OpenAIService (lines 148, 163, 249). -/
def validGlasses : List String :=
  ["rocks", "highball", "coupe", "martini", "wine", "shot"]

/-- The four-field completeness check
`recipe.name && recipe.glass && recipe.ingredients && recipe.instructions`
(a JavaScript falsy test on strings: non-empty). -/
def hasAllFields (r : RecipeSuggestion) : Bool :=
  !(r.name == "") && !(r.glass == "") && !(r.ingredients == "") && !(r.instructions == "")

/-- The glass repair: `validGlasses.includes(recipe.glass)` or else the glass
is rewritten to `rocks` (lines 149-151, 164-166, 252-255). -/
def fixGlass (r : RecipeSuggestion) : RecipeSuggestion :=
  if validGlasses.contains r.glass then r else { r with glass := "rocks" }

/-- The fixed 8-recipe fallback library from `getFallbackRecipe` (lines 339-388). -/
def fallbackRecipes : List RecipeSuggestion :=
  [
    { name := "Classic Negroni",
      glass := "rocks",
      ingredients := "30ml Gin\n30ml Campari\n30ml Sweet Vermouth\nOrange peel for garnish",
      instructions := "1. Add all spirits to a mixing glass with ice\n2. Stir for 30 seconds to achieve proper dilution\n3. Strain over fresh ice in a rocks glass\n4. Express orange peel oils over the surface\n5. Garnish with the orange peel" },
    { name := "Old Fashioned",
      glass := "rocks",
      ingredients := "60ml Bourbon Whiskey\n1 sugar cube (or 5ml simple syrup)\n2-3 dashes Angostura bitters\nOrange peel\nLuxardo cherry (optional)",
      instructions := "1. Muddle sugar cube with bitters and a splash of water\n2. Add bourbon and large ice cube\n3. Stir gently for 20-30 seconds\n4. Express orange peel over the drink\n5. Garnish with orange peel and cherry" },
    { name := "Classic Margarita",
      glass := "coupe",
      ingredients := "50ml Tequila (Blanco)\n25ml Cointreau or Triple Sec\n25ml Fresh lime juice\nSalt for rim\nLime wheel for garnish",
      instructions := "1. Run lime wedge around rim of glass and dip in salt\n2. Add all ingredients to a shaker with ice\n3. Shake vigorously for 15 seconds\n4. Strain into prepared coupe glass\n5. Garnish with lime wheel" },
    { name := "Mojito",
      glass := "highball",
      ingredients := "50ml White Rum\n25ml Fresh lime juice\n15ml Simple syrup\n8-10 fresh mint leaves\nSoda water\nMint sprig and lime wheel for garnish",
      instructions := "1. Gently muddle mint leaves with simple syrup\n2. Add lime juice and rum\n3. Fill glass with crushed ice\n4. Stir well to combine\n5. Top with soda water\n6. Garnish with mint sprig and lime wheel" },
    { name := "Whiskey Sour",
      glass := "coupe",
      ingredients := "60ml Bourbon Whiskey\n30ml Fresh lemon juice\n22ml Simple syrup\n1 Egg white (optional)\n3 drops Angostura bitters\nLemon wheel and cherry for garnish",
      instructions := "1. If using egg white, dry shake all ingredients first (no ice)\n2. Add ice and shake vigorously for 15 seconds\n3. Double strain into chilled coupe glass\n4. If using egg white, float bitters on foam and draw pattern with toothpick\n5. Garnish with lemon wheel and cherry" },
    { name := "Aviation Cocktail",
      glass := "coupe",
      ingredients := "60ml Gin\n15ml Maraschino Liqueur\n10ml Crème de Violette\n22ml Fresh lemon juice\nLemon twist for garnish",
      instructions := "1. Add all ingredients to a shaker with ice\n2. Shake vigorously for 15 seconds\n3. Double strain into chilled coupe glass\n4. Express lemon twist oils over drink\n5. Garnish with the lemon twist" },
    { name := "Moscow Mule",
      glass := "highball",
      ingredients := "50ml Vodka\n15ml Fresh lime juice\n120ml Ginger beer\nLime wedge for garnish\nMint sprig (optional)",
      instructions := "1. Fill copper mug or highball glass with ice\n2. Add vodka and lime juice\n3. Top with ginger beer\n4. Stir gently to combine\n5. Garnish with lime wedge and mint sprig" },
    { name := "Espresso Martini",
      glass := "martini",
      ingredients := "50ml Vodka\n30ml Fresh espresso (cooled)\n20ml Coffee liqueur (Kahlúa)\n10ml Simple syrup\n3 coffee beans for garnish",
      instructions := "1. Add all ingredients to a shaker with ice\n2. Shake vigorously for 20 seconds\n3. Double strain into chilled martini glass\n4. The foam should form naturally from shaking\n5. Garnish with 3 coffee beans on top" }
  ]

/-- The `getFallbackRecipe()`: `recipes[Math.floor(Math.random() * recipes.length)]`;
the random draw is modelled by the explicit `rnd` argument reduced modulo the
library size (`Math.floor(Math.random() * n)` is uniform in `[0, n)`). -/
def getFallbackRecipe (rnd : Nat) : RecipeSuggestion :=
  fallbackRecipes.get ⟨rnd % fallbackRecipes.length, Nat.mod_lt rnd (by decide)⟩

/-- The `getMultipleFallbackRecipes(count)`: a loop `for (let i = 0; i < count; i++)`
pushing one pseudorandom fallback recipe per iteration.  `count` is an integer;
for a non-positive count the loop body never runs. -/
def getMultipleFallbackRecipes (rnds : Nat → Nat) (count : Int) : List RecipeSuggestion :=
  (List.range count.toNat).map fun i => getFallbackRecipe (rnds i)

/-- The `generateCocktailRecipe(userMessage, inventory)` with the external call
outcome and the random draw made explicit.  Traces lines 41-178: unconfigured
service, transport failure, non-ok status and parse failure all fall back; a
`recipes` array uses only its first element (an empty array raises a TypeError
that the surrounding catch turns into a fallback); an incomplete recipe raises
and falls back; an accepted recipe has its glass repaired. -/
def generateCocktailRecipe (svc : OpenAIServiceState) (userMessage : String)
    (inventory : List Ingredient) (outcome : ApiOutcome) (rnd : Nat) :
    RecipeSuggestion :=
  if !svc.isConfigured then getFallbackRecipe rnd
  else
    match outcome with
    | .networkError => getFallbackRecipe rnd
    | .response status content =>
      if !statusOk status then getFallbackRecipe rnd
      else
        match content with
        | .unparsable => getFallbackRecipe rnd
        | .recipesArr [] => getFallbackRecipe rnd
        | .recipesArr (r :: _) =>
          if hasAllFields r then fixGlass r else getFallbackRecipe rnd
        | .singleObj r =>
          if hasAllFields r then fixGlass r else getFallbackRecipe rnd

/-- The validation of a parsed `recipes` array in generateMultipleRecipes
(lines 249-255): filter by the four-field check, then repair each glass. -/
def validateRecipes (rs : List RecipeSuggestion) : List RecipeSuggestion :=
  (rs.filter hasAllFields).map fixGlass

/-- The `generateMultipleRecipes(userMessage, inventory, count)` with the external
call outcome and the random draws made explicit.  Traces lines 181-262: every
failure (unconfigured, transport, non-ok status, parse failure, missing
`recipes` array, or empty validated array) returns
`getMultipleFallbackRecipes(count)` with the unclamped `count`. -/
def generateMultipleRecipes (svc : OpenAIServiceState) (userMessage : String)
    (inventory : List Ingredient) (count : Int) (outcome : ApiOutcome)
    (rnds : Nat → Nat) : List RecipeSuggestion :=
  if !svc.isConfigured then getMultipleFallbackRecipes rnds count
  else
    match outcome with
    | .networkError => getMultipleFallbackRecipes rnds count
    | .response status content =>
      if !statusOk status then getMultipleFallbackRecipes rnds count
      else
        match content with
        | .unparsable => getMultipleFallbackRecipes rnds count
        | .singleObj _ => getMultipleFallbackRecipes rnds count
        | .recipesArr rs =>
          if 0 < (validateRecipes rs).length then validateRecipes rs
          else getMultipleFallbackRecipes rnds count

/-- Keyword list of `handleSend` in AIChatScreen.tsx line 84 (it lacks the
word `some` that the service-side list has). -/
def multipleKeywordsScreen : List String :=
  ["recipes", "suggestions", "options", "cocktails", "multiple", "few", "several"]

/-- The `requestsMultiple` computed by `handleSend` (AIChatScreen lines 85-87). -/
def requestsMultipleScreen (userMessage : String) : Bool :=
  multipleKeywordsScreen.any fun keyword =>
    strContains keyword.toList (userMessage.toList.map Char.toLower)

/-- The `requestedCount` computed by `handleSend` (AIChatScreen lines 90-91):
`numberMatch ? parseInt(numberMatch[1]) : (requestsMultiple ? 3 : 0)`. -/
def screenRequestedCount (userMessage : String) : Nat :=
  match extractCount userMessage with
  | some n => n
  | none => if requestsMultipleScreen userMessage then 3 else 0

/-- JavaScript `x || d` on numbers: `d` when `x` is falsy (zero). -/
def jsOrDefault (x fallback : Nat) : Nat :=
  if x == 0 then fallback else x

/-- The `count` passed by `handleSend` to generateMultipleRecipes
(AIChatScreen line 98): `Math.min(requestedCount || 3, 5)`. -/
def screenCount (userMessage : String) : Nat :=
  min (jsOrDefault (screenRequestedCount userMessage) 3) 5

/-- The argument record of `DatabaseService.addRecipe` (a Recipe without id). -/
structure RecipeInput where
  name : String
  ingredients : String
  instructions : String
  glass : String
  source : String
  dateAdded : String
deriving Repr, DecidableEq

/-- The `recipes` table: rows plus the AUTOINCREMENT counter. -/
structure RecipesTable where
  rows : List Recipe
  nextId : Nat
deriving Repr, DecidableEq

/-- The `addRecipe` of DatabaseService (part_000 lines 94-108): INSERT a row
with the next auto-increment id, returning `lastInsertRowId`. -/
def addRecipe (db : RecipesTable) (recipe : RecipeInput) : RecipesTable × Nat :=
  let newRow : Recipe :=
    { id := db.nextId, name := recipe.name, ingredients := recipe.ingredients,
      instructions := recipe.instructions, glass := recipe.glass,
      source := recipe.source, dateAdded := recipe.dateAdded }
  ({ rows := db.rows ++ [newRow], nextId := db.nextId + 1 }, db.nextId)

/-- The `getAllRecipes` of DatabaseService (part_000 lines 110-115):
`SELECT * FROM recipes ORDER BY dateAdded DESC` (descending text order). -/
def getAllRecipes (db : RecipesTable) : List Recipe :=
  db.rows.mergeSort fun a b => !(decide (a.dateAdded < b.dateAdded))

/-- The `handleSaveRecipe` of AIChatScreen (lines 193-208): promote a
suggestion to a stored Recipe with `source: 'AI Generated'` and the current
date. -/
def handleSaveRecipe (recipe : RecipeSuggestion) (currentDate : String)
    (db : RecipesTable) : RecipesTable :=
  (addRecipe db
    { name := recipe.name, ingredients := recipe.ingredients,
      instructions := recipe.instructions, glass := recipe.glass,
      source := "AI Generated", dateAdded := currentDate }).1

/-- Spec-side rendering of the ingredient listing, written independently of the
source translation: an accumulator pass appending one comma-separated
`name (category)` entry per item, with the literal marker for an empty
inventory.  Used to state the refinement claim about `inventoryList`. -/
def specListingAux (acc : String) : List Ingredient → String
  | [] => acc
  | item :: rest => specListingAux (acc ++ ", " ++ ingredientEntry item) rest

/-- Spec-side ingredient listing: comma-joined entries, or the no-inventory
marker when empty. -/
def specIngredientListing : List Ingredient → String
  | [] => "No inventory available"
  | item :: rest => specListingAux (ingredientEntry item) rest

/-- Failure condition of a single-recipe call, as the claims taxonomy gives it:
transport error, non-2xx status, unparsable body, or validation failure of the
(first) recipe the call would use. -/
def singleCallFails (outcome : ApiOutcome) : Bool :=
  match outcome with
  | .networkError => true
  | .response status content =>
    !statusOk status ||
      match content with
      | .unparsable => true
      | .singleObj r => !hasAllFields r
      | .recipesArr [] => true
      | .recipesArr (r :: _) => !hasAllFields r

/-- Failure condition of a multi-recipe call: transport error, non-2xx status,
unparsable body, missing recipes array, or no entry passing validation. -/
def multiCallFails (outcome : ApiOutcome) : Bool :=
  match outcome with
  | .networkError => true
  | .response status content =>
    !statusOk status ||
      match content with
      | .unparsable => true
      | .singleObj _ => true
      | .recipesArr rs => (rs.filter hasAllFields).isEmpty



theorem getFallbackRecipe_mem (rnd : Nat) : getFallbackRecipe rnd ∈ fallbackRecipes :=
  List.get_mem fallbackRecipes _ _

theorem fallback_complete : ∀ r ∈ fallbackRecipes, hasAllFields r = true := by decide

theorem fallback_glass_valid :
    ∀ r ∈ fallbackRecipes, validGlasses.contains r.glass = true := by decide

theorem getFallbackRecipe_complete (rnd : Nat) :
    hasAllFields (getFallbackRecipe rnd) = true :=
  fallback_complete _ (getFallbackRecipe_mem rnd)

theorem getFallbackRecipe_glass (rnd : Nat) :
    validGlasses.contains (getFallbackRecipe rnd).glass = true :=
  fallback_glass_valid _ (getFallbackRecipe_mem rnd)

theorem fixGlass_glass_valid (r : RecipeSuggestion) :
    validGlasses.contains (fixGlass r).glass = true := by
  unfold fixGlass
  split
  next h => exact h
  next h =>
    show validGlasses.contains "rocks" = true
    decide

theorem getMultipleFallbackRecipes_length (rnds : Nat → Nat) (count : Int) :
    (getMultipleFallbackRecipes rnds count).length = count.toNat := by
  simp [getMultipleFallbackRecipes]

theorem getMultipleFallbackRecipes_mem (rnds : Nat → Nat) (count : Int) :
    ∀ r ∈ getMultipleFallbackRecipes rnds count, r ∈ fallbackRecipes := by
  intro r hr
  simp only [getMultipleFallbackRecipes, List.mem_map] at hr
  obtain ⟨i, _, rfl⟩ := hr
  exact getFallbackRecipe_mem _

theorem generateCocktailRecipe_fail (svc : OpenAIServiceState) (msg : String)
    (inv : List Ingredient) (outcome : ApiOutcome) (rnd : Nat)
    (h : singleCallFails outcome = true) :
    generateCocktailRecipe svc msg inv outcome rnd = getFallbackRecipe rnd := by
  cases hc : svc.isConfigured with
  | false => simp [generateCocktailRecipe, hc]
  | true =>
    cases outcome with
    | networkError => simp [generateCocktailRecipe, hc]
    | response status content =>
      cases ho : statusOk status with
      | false => simp [generateCocktailRecipe, hc, ho]
      | true =>
        cases content with
        | unparsable => simp [generateCocktailRecipe, hc, ho]
        | singleObj r =>
          simp only [singleCallFails, ho, Bool.not_true, Bool.false_or] at h
          have hr : hasAllFields r = false := by
            revert h; cases hasAllFields r <;> simp
          simp [generateCocktailRecipe, hc, ho, hr]
        | recipesArr rs =>
          cases rs with
          | nil => simp [generateCocktailRecipe, hc, ho]
          | cons r t =>
            simp only [singleCallFails, ho, Bool.not_true, Bool.false_or] at h
            have hr : hasAllFields r = false := by
              revert h; cases hasAllFields r <;> simp
            simp [generateCocktailRecipe, hc, ho, hr]

theorem generateMultipleRecipes_fail (svc : OpenAIServiceState) (msg : String)
    (inv : List Ingredient) (count : Int) (outcome : ApiOutcome) (rnds : Nat → Nat)
    (h : multiCallFails outcome = true) :
    generateMultipleRecipes svc msg inv count outcome rnds
      = getMultipleFallbackRecipes rnds count := by
  cases hc : svc.isConfigured with
  | false => simp [generateMultipleRecipes, hc]
  | true =>
    cases outcome with
    | networkError => simp [generateMultipleRecipes, hc]
    | response status content =>
      cases ho : statusOk status with
      | false => simp [generateMultipleRecipes, hc, ho]
      | true =>
        cases content with
        | unparsable => simp [generateMultipleRecipes, hc, ho]
        | singleObj r => simp [generateMultipleRecipes, hc, ho]
        | recipesArr rs =>
          simp only [multiCallFails, ho, Bool.not_true, Bool.false_or] at h
          have hf : rs.filter hasAllFields = [] := by
            simpa [List.isEmpty_iff] using h
          simp [generateMultipleRecipes, hc, ho, validateRecipes, hf]


theorem validateRecipes_glass (rs : List RecipeSuggestion) :
    ∀ r ∈ validateRecipes rs, validGlasses.contains r.glass = true := by
  intro r hr
  simp only [validateRecipes, List.mem_map] at hr
  obtain ⟨r2, _, rfl⟩ := hr
  exact fixGlass_glass_valid r2

theorem generateCocktailRecipe_cases (svc : OpenAIServiceState) (msg : String)
    (inv : List Ingredient) (outcome : ApiOutcome) (rnd : Nat) :
    generateCocktailRecipe svc msg inv outcome rnd = getFallbackRecipe rnd ∨
    ∃ r2, generateCocktailRecipe svc msg inv outcome rnd = fixGlass r2 := by
  unfold generateCocktailRecipe
  repeat' split
  all_goals first
    | exact Or.inl rfl
    | exact Or.inr ⟨_, rfl⟩

theorem generateMultipleRecipes_subset (svc : OpenAIServiceState) (msg : String)
    (inv : List Ingredient) (count : Int) (outcome : ApiOutcome) (rnds : Nat → Nat) :
    ∀ r ∈ generateMultipleRecipes svc msg inv count outcome rnds,
      r ∈ fallbackRecipes ∨ ∃ r2, r = fixGlass r2 := by
  intro r hr
  unfold generateMultipleRecipes at hr
  repeat' split at hr
  all_goals first
    | exact Or.inl (getMultipleFallbackRecipes_mem rnds count r hr)
    | (simp only [validateRecipes, List.mem_map] at hr
       obtain ⟨r2, h2, rfl⟩ := hr
       exact Or.inr ⟨r2, rfl⟩)

theorem strAppend_assoc (a b c : String) : a ++ b ++ c = a ++ (b ++ c) :=
  String.ext (by simp [String.data_append, List.append_assoc])

theorem specListingAux_eq (l : List Ingredient) :
    ∀ acc, specListingAux acc l = jsJoin ", " (acc :: l.map ingredientEntry) := by
  induction l with
  | nil => intro acc; rfl
  | cons i rest ih =>
    intro acc
    show specListingAux (acc ++ ", " ++ ingredientEntry i) rest = _
    rw [ih, List.map_cons]
    cases hrm : rest.map ingredientEntry with
    | nil => rfl
    | cons e es =>
      show acc ++ ", " ++ ingredientEntry i ++ ", " ++ jsJoin ", " (e :: es)
          = acc ++ ", " ++ (ingredientEntry i ++ ", " ++ jsJoin ", " (e :: es))
      simp [strAppend_assoc]


theorem generateMultipleRecipes_success (svc : OpenAIServiceState) (msg : String)
    (inv : List Ingredient) (count : Int) (rs : List RecipeSuggestion)
    (rnds : Nat → Nat) (hc : svc.isConfigured = true)
    (hv : 0 < (validateRecipes rs).length) :
    generateMultipleRecipes svc msg inv count (.response 200 (.recipesArr rs)) rnds
      = validateRecipes rs := by
  unfold generateMultipleRecipes
  rw [hc]
  show (if (!true) = true then getMultipleFallbackRecipes rnds count
    else if (!statusOk 200) = true then getMultipleFallbackRecipes rnds count
    else if 0 < (validateRecipes rs).length then validateRecipes rs
    else getMultipleFallbackRecipes rnds count) = validateRecipes rs
  rw [if_neg (by decide), if_neg (by decide), if_pos hv]

/-- C1: for every failing external-call outcome (network error, non-2xx status,
unparsable JSON, or validation failure), generateCocktailRecipe returns a
member of the fixed fallback library with all four fields non-empty, and
generateMultipleRecipes returns a non-empty list of exactly the requested
count, every element drawn from the fallback library; neither result is ever
empty and no error escapes. -/
theorem claim1_failure_fallback (svc : OpenAIServiceState) (msg : String)
    (inv : List Ingredient) (outcome : ApiOutcome) (rnd : Nat) (rnds : Nat → Nat)
    (count : Int) :
    (singleCallFails outcome = true →
      generateCocktailRecipe svc msg inv outcome rnd ∈ fallbackRecipes ∧
      hasAllFields (generateCocktailRecipe svc msg inv outcome rnd) = true) ∧
    (multiCallFails outcome = true → 1 ≤ count →
      (generateMultipleRecipes svc msg inv count outcome rnds).length = count.toNat ∧
      generateMultipleRecipes svc msg inv count outcome rnds ≠ [] ∧
      ∀ r ∈ generateMultipleRecipes svc msg inv count outcome rnds,
        r ∈ fallbackRecipes) := by
  constructor
  · intro h
    rw [generateCocktailRecipe_fail svc msg inv outcome rnd h]
    exact ⟨getFallbackRecipe_mem rnd, getFallbackRecipe_complete rnd⟩
  · intro h hcount
    rw [generateMultipleRecipes_fail svc msg inv count outcome rnds h]
    refine ⟨getMultipleFallbackRecipes_length rnds count, ?_,
      getMultipleFallbackRecipes_mem rnds count⟩
    intro hnil
    have hlen := getMultipleFallbackRecipes_length rnds count
    rw [hnil] at hlen
    simp only [List.length_nil] at hlen
    omega

/-- Witness for C1 at a concrete failing outcome (network error) and count 2. -/
theorem claim1_witness :
    generateCocktailRecipe OpenAIServiceInit "margarita recipe" []
      ApiOutcome.networkError 0 ∈ fallbackRecipes ∧
    (generateMultipleRecipes OpenAIServiceInit "margarita recipe" [] 2
      ApiOutcome.networkError (fun _ => 0)).length = (2 : Int).toNat := by
  have h := claim1_failure_fallback OpenAIServiceInit "margarita recipe" []
    ApiOutcome.networkError 0 (fun _ => 0) 2
  exact ⟨(h.1 (by decide)).1, (h.2 (by decide) (by decide)).1⟩

/-- C2 counterexample: on the input string of the claim the count regex does
not match at all (the word between the digit and the keyword breaks the
pattern), so the extracted count is not 2 and the engine-visible count is 3,
not 2 — refuting the claimed extraction of count = 2. -/
theorem claim2_counterexample :
    extractCount "Give me 2 margarita cocktails" = none ∧
    requestedCount "Give me 2 margarita cocktails" ≠ 2 ∧
    screenCount "Give me 2 margarita cocktails" ≠ 2 := by decide

/-- C2 amended: for the input "Give me 2 margarita cocktails" the plural flag
is true but the numeric pattern does not match (the digit is not directly
followed by a count keyword), so the resolved count defaults to 3 and the
engine requests exactly 3 recipes; every resulting recipe whose glass string
is not in the valid set is rewritten to rocks. -/
theorem claim2_scenario (svc : OpenAIServiceState) (inv : List Ingredient)
    (rs : List RecipeSuggestion) (rnds : Nat → Nat) (r : RecipeSuggestion) :
    requestsMultiple "Give me 2 margarita cocktails" = true ∧
    requestsMultipleScreen "Give me 2 margarita cocktails" = true ∧
    extractCount "Give me 2 margarita cocktails" = none ∧
    screenCount "Give me 2 margarita cocktails" = 3 ∧
    actualCountMultiple 3 = 3 ∧
    (validGlasses.contains r.glass = false → (fixGlass r).glass = "rocks") ∧
    (svc.isConfigured = true → hasAllFields r = true → r ∈ rs →
      fixGlass r ∈ generateMultipleRecipes svc "Give me 2 margarita cocktails"
        inv 3 (.response 200 (.recipesArr rs)) rnds) := by
  refine ⟨by decide, by decide, by decide, by decide, by decide, ?_, ?_⟩
  · intro h
    unfold fixGlass
    rw [if_neg (fun hcontra => Bool.false_ne_true (h ▸ hcontra))]
  · intro hc hr hmem
    have hmem2 : fixGlass r ∈ validateRecipes rs := by
      simp only [validateRecipes, List.mem_map]
      exact ⟨r, List.mem_filter.mpr ⟨hmem, hr⟩, rfl⟩
    have hv : 0 < (validateRecipes rs).length :=
      List.length_pos.mpr (fun h0 => by rw [h0] at hmem2; cases hmem2)
    rw [generateMultipleRecipes_success svc "Give me 2 margarita cocktails"
      inv 3 rs rnds hc hv]
    exact hmem2

/-- Witness for C2 amended: a recipe with glass outside the valid set is
rewritten to rocks and survives into the engine result. -/
theorem claim2_witness :
    (fixGlass ⟨"Margarita Twist", "fishbowl", "i", "s"⟩).glass = "rocks" ∧
    fixGlass ⟨"Margarita Twist", "fishbowl", "i", "s"⟩ ∈
      generateMultipleRecipes OpenAIServiceInit "Give me 2 margarita cocktails"
        [] 3 (.response 200 (.recipesArr [⟨"Margarita Twist", "fishbowl", "i", "s"⟩]))
        (fun _ => 0) := by
  have h := claim2_scenario OpenAIServiceInit []
    [⟨"Margarita Twist", "fishbowl", "i", "s"⟩] (fun _ => 0)
    ⟨"Margarita Twist", "fishbowl", "i", "s"⟩
  exact ⟨h.2.2.2.2.2.1 (by decide),
         h.2.2.2.2.2.2 (by decide) (by decide) (by decide)⟩

/-- C3: the resolved count is the explicitly extracted number when the numeric
pattern matches, otherwise 3 when a plural keyword occurs in the lower-cased
request, otherwise 1; and the clamped engine-visible count always lies in
[1, 5], in both the single-call and the multi-call clamp. -/
theorem claim3_count_resolution (msg : String) (n : Nat) (c : Int) :
    (extractCount msg = some n → requestedCount msg = n) ∧
    (extractCount msg = none →
      requestedCount msg = if requestsMultiple msg then 3 else 1) ∧
    1 ≤ actualCount msg ∧ actualCount msg ≤ 5 ∧
    1 ≤ actualCountMultiple c ∧ actualCountMultiple c ≤ 5 := by
  refine ⟨?_, ?_, ?_, ?_, ?_, ?_⟩
  · intro h; simp [requestedCount, h]
  · intro h; simp [requestedCount, h]
  · unfold actualCount; omega
  · unfold actualCount; omega
  · unfold actualCountMultiple; omega
  · unfold actualCountMultiple; omega

/-- Witness for C3 at a concrete request with an explicit number. -/
theorem claim3_witness :
    extractCount "make me 4 drinks please" = some 4 ∧
    requestedCount "make me 4 drinks please" = 4 ∧
    actualCount "make me 4 drinks please" = 4 := by
  have h := claim3_count_resolution "make me 4 drinks please" 4 0
  exact ⟨by decide, h.1 (by decide), by decide⟩

/-- C4: every RecipeSuggestion either operation returns, API-produced or
fallback, has its glass in the six-element valid set (an out-of-set glass is
rewritten to rocks, the recipe is not rejected). -/
theorem claim4_glass_invariant (svc : OpenAIServiceState) (msg : String)
    (inv : List Ingredient) (outcome : ApiOutcome) (rnd : Nat) (rnds : Nat → Nat)
    (count : Int) :
    validGlasses.contains (generateCocktailRecipe svc msg inv outcome rnd).glass
      = true ∧
    ∀ r ∈ generateMultipleRecipes svc msg inv count outcome rnds,
      validGlasses.contains r.glass = true := by
  constructor
  · rcases generateCocktailRecipe_cases svc msg inv outcome rnd with h | ⟨r2, h⟩
    · rw [h]; exact getFallbackRecipe_glass rnd
    · rw [h]; exact fixGlass_glass_valid r2
  · intro r hr
    rcases generateMultipleRecipes_subset svc msg inv count outcome rnds r hr with
      h | ⟨r2, rfl⟩
    · exact fallback_glass_valid r h
    · exact fixGlass_glass_valid r2

/-- C5: for every inventory list the ingredient listing embedded in the
generation prompt equals the spec-side rendering: the comma-joined sequence of
name (category) entries when non-empty, the literal no-inventory marker when
empty, never any other shape. -/
theorem claim5_listing (inventory : List Ingredient) :
    inventoryList inventory = specIngredientListing inventory := by
  cases inventory with
  | nil => rfl
  | cons i rest =>
    show inventoryList (i :: rest) = specListingAux (ingredientEntry i) rest
    rw [specListingAux_eq]
    simp [inventoryList]

/-- C6: a parsed multi-recipe array keeps exactly the entries whose four
fields are all non-empty (with glass repair applied); when no entry survives
the filter, the call returns the locally computed fallback set for the
originally requested count (which has exactly that length) instead of an
empty list. -/
theorem claim6_filter_or_fallback (svc : OpenAIServiceState) (msg : String)
    (inv : List Ingredient) (count : Int) (rs : List RecipeSuggestion)
    (rnds : Nat → Nat) (hc : svc.isConfigured = true) :
    (rs.filter hasAllFields ≠ [] →
      generateMultipleRecipes svc msg inv count (.response 200 (.recipesArr rs)) rnds
        = (rs.filter hasAllFields).map fixGlass) ∧
    (rs.filter hasAllFields = [] →
      generateMultipleRecipes svc msg inv count (.response 200 (.recipesArr rs)) rnds
        = getMultipleFallbackRecipes rnds count ∧
      (getMultipleFallbackRecipes rnds count).length = count.toNat) := by
  constructor
  · intro hne
    have hv : 0 < (validateRecipes rs).length := by
      simp only [validateRecipes, List.length_map]
      exact List.length_pos.mpr hne
    rw [generateMultipleRecipes_success svc msg inv count rs rnds hc hv]
    rfl
  · intro he
    have hfail : multiCallFails (.response 200 (.recipesArr rs)) = true := by
      simp [multiCallFails, he]
    exact ⟨generateMultipleRecipes_fail svc msg inv count _ rnds hfail,
      getMultipleFallbackRecipes_length rnds count⟩

/-- Witness for C6: an array whose only entry misses its name falls back to
the requested number of library recipes. -/
theorem claim6_witness :
    generateMultipleRecipes OpenAIServiceInit "msg" [] 2
      (.response 200 (.recipesArr [⟨"", "rocks", "i", "s"⟩])) (fun _ => 0)
      = getMultipleFallbackRecipes (fun _ => 0) 2 := by
  exact ((claim6_filter_or_fallback OpenAIServiceInit "msg" [] 2
    [⟨"", "rocks", "i", "s"⟩] (fun _ => 0) (by decide)).2 (by decide)).1

/-- C7: saving any RecipeSuggestion through the save action and reloading the
recipe store yields a Recipe whose name, ingredients, instructions and glass
equal the suggestion fields, with source AI Generated. -/
theorem claim7_save_roundtrip (s : RecipeSuggestion) (currentDate : String)
    (db : RecipesTable) :
    ∃ r ∈ getAllRecipes (handleSaveRecipe s currentDate db),
      r.name = s.name ∧ r.ingredients = s.ingredients ∧
      r.instructions = s.instructions ∧ r.glass = s.glass ∧
      r.source = "AI Generated" := by
  refine ⟨{ id := db.nextId, name := s.name, ingredients := s.ingredients,
            instructions := s.instructions, glass := s.glass,
            source := "AI Generated", dateAdded := currentDate },
          ?_, rfl, rfl, rfl, rfl, rfl⟩
  unfold getAllRecipes handleSaveRecipe addRecipe
  rw [List.mem_mergeSort]
  simp

/-- C8: the service constructed with the built-in placeholder key reports
itself as configured: the placeholder-comparison condition evaluates to true. -/
theorem claim8_placeholder_configured :
    isApiConfigured OpenAIServiceInit = true ∧
    ((OPENAI_API_KEY == "//") && decide (0 < OPENAI_API_KEY.length)) = true := by
  decide

/-- C9: the public fallback accessor returns exactly max(n, 0) recipes (the
length is the integer truncation toNat, with no clamp to [1, 5]), each drawn
from the 8-recipe library, and the empty list for every non-positive count. -/
theorem claim9_fallback_accessor (rnds : Nat → Nat) (n : Int) :
    (getMultipleFallbackRecipes rnds n).length = n.toNat ∧
    (∀ r ∈ getMultipleFallbackRecipes rnds n, r ∈ fallbackRecipes) ∧
    (n ≤ 0 → getMultipleFallbackRecipes rnds n = []) := by
  refine ⟨getMultipleFallbackRecipes_length rnds n,
    getMultipleFallbackRecipes_mem rnds n, ?_⟩
  intro hn
  unfold getMultipleFallbackRecipes
  rw [show n.toNat = 0 by omega]
  rfl

/-- Witness for C9: a negative count yields the empty list, and a count of 7
is not clamped to 5. -/
theorem claim9_witness :
    getMultipleFallbackRecipes (fun _ => 0) (-2) = [] ∧
    (getMultipleFallbackRecipes (fun _ => 0) 7).length = (7 : Int).toNat := by
  exact ⟨(claim9_fallback_accessor (fun _ => 0) (-2)).2.2 (by decide),
         (claim9_fallback_accessor (fun _ => 0) 7).1⟩

/-- C10: when a single-recipe call parses to an object with a recipes array,
only the first element matters: the result is the same as if the array held
only that element; a complete first element is returned (glass repaired), and
an incomplete first element sends the whole call to the fallback even when
later elements are complete. -/
theorem claim10_first_element_only (svc : OpenAIServiceState) (msg : String)
    (inv : List Ingredient) (r : RecipeSuggestion) (rest : List RecipeSuggestion)
    (rnd : Nat) (hc : svc.isConfigured = true) :
    (generateCocktailRecipe svc msg inv (.response 200 (.recipesArr (r :: rest))) rnd
        = generateCocktailRecipe svc msg inv (.response 200 (.recipesArr [r])) rnd) ∧
    (hasAllFields r = true →
      generateCocktailRecipe svc msg inv (.response 200 (.recipesArr (r :: rest))) rnd
        = fixGlass r) ∧
    (hasAllFields r = false →
      generateCocktailRecipe svc msg inv (.response 200 (.recipesArr (r :: rest))) rnd
        = getFallbackRecipe rnd) := by
  have ho : statusOk 200 = true := by decide
  refine ⟨?_, ?_, ?_⟩
  · cases hr : hasAllFields r <;> simp [generateCocktailRecipe, hc, ho, hr]
  · intro hr; simp [generateCocktailRecipe, hc, ho, hr]
  · intro hr; simp [generateCocktailRecipe, hc, ho, hr]

/-- Witness for C10: an incomplete first element forces the fallback although
the second element is complete. -/
theorem claim10_witness :
    generateCocktailRecipe OpenAIServiceInit "msg" []
      (.response 200 (.recipesArr
        [⟨"", "coupe", "i", "s"⟩, ⟨"Mojito", "highball", "i2", "s2"⟩])) 3
      = getFallbackRecipe 3 := by
  exact (claim10_first_element_only OpenAIServiceInit "msg" []
    ⟨"", "coupe", "i", "s"⟩ [⟨"Mojito", "highball", "i2", "s2"⟩] 3
    (by decide)).2.2 (by decide)

end Recipez
